import Mathlib

/-!
Verification of the CivicTrack geo-visibility filter and moderation-threshold
core, shallowly embedded from the backend route handlers
(`backend/src/routes/issues.js`) and the error taxonomy of the error-handler
middleware.  Coordinates and distances are modelled as real numbers, discrete
state (issues, flags) as lists with natural-number identifiers.
-/

namespace CivicTrack

open Real

/-- JavaScript `Math.atan2(y, x)`: the angle of the point `(x, y)`,
in `(-pi, pi]`, with the usual sign conventions. -/
noncomputable def atan2 (y x : ℝ) : ℝ :=
  if 0 < x then Real.arctan (y / x)
  else if x = 0 then
    (if 0 < y then Real.pi / 2 else if y < 0 then -(Real.pi / 2) else 0)
  else if 0 ≤ y then Real.arctan (y / x) + Real.pi
  else Real.arctan (y / x) - Real.pi

/-- The intermediate value `a` of `calculateDistance` in
`backend/src/routes/issues.js` (the haversine of the central angle). -/
noncomputable def havA (lat1 lon1 lat2 lon2 : ℝ) : ℝ :=
  let dLat := (lat2 - lat1) * Real.pi / 180
  let dLon := (lon2 - lon1) * Real.pi / 180
  Real.sin (dLat / 2) * Real.sin (dLat / 2) +
    Real.cos (lat1 * Real.pi / 180) * Real.cos (lat2 * Real.pi / 180) *
    Real.sin (dLon / 2) * Real.sin (dLon / 2)

/-- `calculateDistance` from `backend/src/routes/issues.js`: haversine formula
distance in kilometers with Earth radius `R = 6371`. -/
noncomputable def calculateDistance (lat1 lon1 lat2 lon2 : ℝ) : ℝ :=
  let R : ℝ := 6371
  let a := havA lat1 lon1 lat2 lon2
  let c := 2 * atan2 (Real.sqrt a) (Real.sqrt (1 - a))
  R * c

/-- An issue document (fields of the `issues` collection that the modelled
routes read or write). -/
structure Issue where
  id : ℕ
  category : String
  status : String
  latitude : ℝ
  longitude : ℝ
  reporter_id : Option ℕ
  flag_count : ℕ
  is_hidden : Bool
  created_at : ℤ

/-- A record of the `issue_flags` collection. -/
structure IssueFlagRec where
  id : ℕ
  issue_id : ℕ
  flagged_by : ℕ
  reason : Option String

/-- The datastore state the flag route reads and writes. -/
structure Store where
  issues : List Issue
  flags : List IssueFlagRec

/-- The application error classes of the error-handler middleware. -/
inductive ApiError where
  | validation
  | notFound
  | unauthorized
  | forbidden
deriving DecidableEq

/-- HTTP status codes attached to the error classes by the error-handler
middleware (`ValidationError` 400, `NotFoundError` 404,
`UnauthorizedError` 401, `ForbiddenError` 403).  There is no error class
with status 409 (Conflict) in the source. -/
def ApiError.statusCode : ApiError → ℕ
  | .validation => 400
  | .notFound => 404
  | .unauthorized => 401
  | .forbidden => 403

/-! ### The GET / (list issues) route -/

/-- `latRange = radius / 111` from the bounding-box pre-filter. -/
noncomputable def latRange (radius : ℝ) : ℝ := radius / 111

/-- `lonRange = radius / (111 * Math.cos(latitude * Math.PI / 180))` from the
bounding-box pre-filter. -/
noncomputable def lonRange (latitude radius : ℝ) : ℝ :=
  radius / (111 * Real.cos (latitude * Real.pi / 180))

/-- The bounding-box condition put on `location.latitude` and
`location.longitude` of a candidate issue by the route when a center is
given: `$gte`/`$lte` against `latitude ± latRange` and
`longitude ± lonRange`. -/
noncomputable def inBoundingBox (lat0 lon0 radius lat lon : ℝ) : Prop :=
  lat0 - latRange radius ≤ lat ∧ lat ≤ lat0 + latRange radius ∧
    lon0 - lonRange lat0 radius ≤ lon ∧ lon ≤ lon0 + lonRange lat0 radius

/-- The filter document built by the route: `is_hidden: false`, the optional
category and status equality filters (skipped for the value `all`), and the
bounding box when a center is present. -/
noncomputable def dbPass (category status : Option String)
    (center : Option (ℝ × ℝ)) (radius : ℝ) (i : Issue) : Prop :=
  i.is_hidden = false ∧
    (∀ c ∈ category, c ≠ "all" → i.category = c) ∧
    (∀ s ∈ status, s ≠ "all" → i.status = s) ∧
    (∀ p ∈ center, inBoundingBox p.1 p.2 radius i.latitude i.longitude)

open scoped Classical in
/-- The datastore find with the filter document. -/
noncomputable def dbFilter (category status : Option String)
    (center : Option (ℝ × ℝ)) (radius : ℝ) (issues : List Issue) :
    List Issue :=
  issues.filter fun i => decide (dbPass category status center radius i)

/-- The sort key `created_at: -1` (most recent first) of the datastore
query. -/
def createdDesc (a b : Issue) : Prop := b.created_at ≤ a.created_at

instance : DecidableRel createdDesc := fun _ _ => Int.decLe _ _

/-- The distance value the route computes for each issue from the query
center. -/
noncomputable def distanceTo (c : ℝ × ℝ) (i : Issue) : ℝ :=
  calculateDistance c.1 c.2 i.latitude i.longitude

/-- The comparator `(a, b) => a.distance - b.distance` used by the final
in-memory sort, as the relation it sorts by. -/
noncomputable def distLE (c : ℝ × ℝ) (a b : Issue) : Prop :=
  distanceTo c a ≤ distanceTo c b

noncomputable instance (c : ℝ × ℝ) : DecidableRel (distLE c) :=
  fun _ _ => Classical.propDecidable _

/-- The page of candidates produced by the datastore query:
filter, sort by `created_at` descending, `skip((page-1)*limit)`,
`limit(limit)`. -/
noncomputable def pagedCandidates (category status : Option String)
    (center : Option (ℝ × ℝ)) (radius : ℝ) (page limit : ℕ)
    (issues : List Issue) : List Issue :=
  ((((dbFilter category status center radius issues).insertionSort
      createdDesc).drop ((page - 1) * limit)).take limit)

open scoped Classical in
/-- The issue list returned by GET `/api/issues`.  When a center is given the
candidates are filtered by exact haversine distance `<= radius` and sorted
ascending by distance; the in-memory JavaScript sort is stable (ECMAScript
2019), modelled by a stable insertion sort applied to the
`created_at`-descending candidate page. -/
noncomputable def listVisibleIssues (category status : Option String)
    (center : Option (ℝ × ℝ)) (radius : ℝ) (page limit : ℕ)
    (issues : List Issue) : List Issue :=
  let paged := pagedCandidates category status center radius page limit issues
  match center with
  | none => paged
  | some c =>
      (paged.filter fun i => decide (distanceTo c i ≤ radius)).insertionSort
        (distLE c)

/-- The category whitelist of the GET route validator
(`query('category').optional().isIn([...])` in
`backend/src/routes/issues.js`). -/
def listQueryCategoryWhitelist : List String :=
  ["all", "roads", "lighting", "water supply", "cleanliness",
    "public safety", "obstructions"]

/-- The category values stored by the seed data
(`backend/src/database/seed.js`), which coincide with the frontend
`IssueCategory` union type and the admin-route whitelist. -/
def seedCategories : List String :=
  ["roads", "lighting", "water_supply", "cleanliness", "public_safety",
    "obstructions"]

/-- The GET route validation step for the category parameter: an absent
category passes, a present one must be in the whitelist, otherwise the route
fails with a `ValidationError`. -/
def categoryParamValid (category : Option String) : Bool :=
  match category with
  | none => true
  | some c => listQueryCategoryWhitelist.contains c

open scoped Classical in
/-- GET `/api/issues` including the express-validator step for the category
parameter. -/
noncomputable def getIssuesRoute (category status : Option String)
    (center : Option (ℝ × ℝ)) (radius : ℝ) (page limit : ℕ)
    (issues : List Issue) : Except ApiError (List Issue) :=
  if categoryParamValid category then
    Except.ok (listVisibleIssues category status center radius page limit issues)
  else
    Except.error ApiError.validation

/-! ### The GET /:id route -/

/-- GET `/api/issues/:id`: `Issue.findOne({ id, is_hidden: false })`, throwing
`NotFoundError` when no such document exists. -/
def getIssueById (issues : List Issue) (id : ℕ) : Except ApiError Issue :=
  match issues.find? (fun i => i.id == id && i.is_hidden == false) with
  | none => Except.error ApiError.notFound
  | some i => Except.ok i

/-! ### The POST /:id/flag route -/

/-- The outcome of a flag request: the datastore state after the request and
the error surfaced to the client, if any. -/
structure SubmitResult where
  store : Store
  error : Option ApiError

/-- The `$inc: { flag_count: 1 }` update of `findOneAndUpdate({ id }, ...)`,
modelled as a map over the issue list guarded by the id (ids of reachable
stores are distinct, so at most one document matches). -/
def incFlagCount (issueId : ℕ) (l : List Issue) : List Issue :=
  l.map fun i =>
    if i.id = issueId then { i with flag_count := i.flag_count + 1 } else i

def setHidden (issueId : ℕ) (l : List Issue) : List Issue :=
  l.map fun i =>
    if i.id = issueId then { i with is_hidden := true } else i

/-- The flag records of one issue (`count(IssueFlag, { issue_id: id })`). -/
def flagsOf (issueId : ℕ) (flags : List IssueFlagRec) : List IssueFlagRec :=
  flags.filter fun f => f.issue_id == issueId

/-- POST `/api/issues/:id/flag` for an authenticated user `userId`:
check existence (`NotFoundError`), then self-flag (`ForbiddenError`), then
duplicate flag (`ValidationError`); on success insert the flag record,
increment `flag_count`, re-count the flag records of the issue, and set
`is_hidden` when the count reaches 3. -/
def submitFlag (s : Store) (issueId userId flagId : ℕ)
    (reason : Option String) : SubmitResult :=
  match s.issues.find? (fun i => i.id == issueId) with
  | none => ⟨s, some ApiError.notFound⟩
  | some issue =>
      if issue.reporter_id = some userId then
        ⟨s, some ApiError.forbidden⟩
      else
        match s.flags.find?
            (fun f => f.issue_id == issueId && f.flagged_by == userId) with
        | some _ => ⟨s, some ApiError.validation⟩
        | none =>
            let flags' : List IssueFlagRec := s.flags ++
              [⟨flagId, issueId, userId, reason⟩]
            let issues₁ : List Issue := incFlagCount issueId s.issues
            let flagCount : ℕ := (flagsOf issueId flags').length
            let issues₂ : List Issue :=
              if 3 ≤ flagCount then setHidden issueId issues₁ else issues₁
            ⟨⟨issues₂, flags'⟩, none⟩

/-- The states reachable by the operations of this core: the empty store,
issue creation (POST `/api/issues`: a fresh id, `flag_count` defaulting to 0,
`is_hidden: false`), and flag submission. -/
inductive Reachable : Store → Prop where
  | init : Reachable ⟨[], []⟩
  | create (s : Store) (issue : Issue) (hs : Reachable s)
      (hfresh : ∀ i ∈ s.issues, i.id ≠ issue.id)
      (hfc : issue.flag_count = 0) (hh : issue.is_hidden = false) :
      Reachable ⟨s.issues ++ [issue], s.flags⟩
  | flag (s : Store) (issueId userId flagId : ℕ) (reason : Option String)
      (hs : Reachable s) :
      Reachable (submitFlag s issueId userId flagId reason).store

/-! ### Auxiliary definitions used by the development -/

/-- The spherical-law-of-cosines form of the central angle cosine. -/
noncomputable def cosCentral (lat1 lon1 lat2 lon2 : ℝ) : ℝ :=
  Real.sin (lat1 * Real.pi / 180) * Real.sin (lat2 * Real.pi / 180) +
    Real.cos (lat1 * Real.pi / 180) * Real.cos (lat2 * Real.pi / 180) *
      Real.cos ((lon2 - lon1) * Real.pi / 180)

instance : IsTotal Issue createdDesc := ⟨fun a b => le_total b.created_at a.created_at⟩

instance : IsTrans Issue createdDesc := ⟨fun _ _ _ h1 h2 => le_trans h2 h1⟩

/-- A visible issue sitting exactly on the antimeridian. -/
noncomputable def antimeridianIssue : Issue :=
  ⟨1, "roads", "reported", 0, 180, none, 0, false, 0⟩

/-- The §3 data-model invariant together with the bookkeeping facts that
maintain it: distinct issue ids, `flag_count` equal to the number of flag
records of the issue, and referential integrity of flag records. -/
def StoreInv (s : Store) : Prop :=
  s.issues.Pairwise (fun a b => a.id ≠ b.id) ∧
    (∀ i ∈ s.issues, i.flag_count = (flagsOf i.id s.flags).length) ∧
    (∀ f ∈ s.flags, ∃ i ∈ s.issues, i.id = f.issue_id)

/-- A store with one issue authored by user 0 and already flagged twice,
reached by replaying issue creation and two flag submissions. -/
def c3Base : Store :=
  ⟨[⟨1, "roads", "reported", 0, 0, some 0, 0, false, 0⟩], []⟩

def c3Store : Store :=
  (submitFlag (submitFlag c3Base 1 5 20 none).store 1 6 21 none).store

/-- A store with one issue authored by user 0, already flagged by user 2. -/
def dupFlagStore : Store :=
  ⟨[⟨1, "roads", "reported", 0, 0, some 0, 1, false, 0⟩], [⟨10, 1, 2, none⟩]⟩

def flagIssue1 : Issue := ⟨1, "roads", "reported", 0, 0, none, 0, false, 0⟩

def flagStore1 : Store := ⟨[flagIssue1], []⟩

/-- A store with one issue authored by user 2. -/
def selfFlagStore : Store :=
  ⟨[⟨1, "roads", "reported", 0, 0, some 2, 0, false, 0⟩], []⟩

def hiddenIssue3 : Issue := ⟨3, "roads", "reported", 0, 0, none, 3, true, 0⟩

/-! ### Trigonometric groundwork -/

lemma sin_le_self {x : ℝ} (h : 0 ≤ x) : Real.sin x ≤ x := by
  rcases eq_or_lt_of_le h with h0 | h0
  · simp [← h0]
  · exact (Real.sin_lt h0).le

lemma sin_half_mul_self (x : ℝ) :
    Real.sin (x / 2) * Real.sin (x / 2) = (1 - Real.cos x) / 2 := by
  have h := Real.sin_sq_eq_half_sub (x / 2)
  rw [show 2 * (x / 2) = x by ring] at h
  linear_combination h

lemma havA_eq (lat1 lon1 lat2 lon2 : ℝ) :
    havA lat1 lon1 lat2 lon2 = (1 - cosCentral lat1 lon1 lat2 lon2) / 2 := by
  unfold havA cosCentral
  have h1 := sin_half_mul_self ((lat2 - lat1) * Real.pi / 180)
  have h2 := sin_half_mul_self ((lon2 - lon1) * Real.pi / 180)
  have h3 : Real.cos ((lat2 - lat1) * Real.pi / 180) =
      Real.cos (lat2 * Real.pi / 180) * Real.cos (lat1 * Real.pi / 180) +
        Real.sin (lat2 * Real.pi / 180) * Real.sin (lat1 * Real.pi / 180) := by
    rw [show (lat2 - lat1) * Real.pi / 180 =
        lat2 * Real.pi / 180 - lat1 * Real.pi / 180 by ring]
    exact Real.cos_sub _ _
  simp only []
  linear_combination h1 +
    Real.cos (lat1 * Real.pi / 180) * Real.cos (lat2 * Real.pi / 180) * h2 -
    h3 / 2

lemma cosCentral_sq_le_one (lat1 lon1 lat2 lon2 : ℝ) :
    cosCentral lat1 lon1 lat2 lon2 ^ 2 ≤ 1 := by
  unfold cosCentral
  set s1 := Real.sin (lat1 * Real.pi / 180) with hs1
  set s2 := Real.sin (lat2 * Real.pi / 180) with hs2
  set c1 := Real.cos (lat1 * Real.pi / 180) with hc1
  set c2 := Real.cos (lat2 * Real.pi / 180) with hc2
  set cB := Real.cos ((lon2 - lon1) * Real.pi / 180) with hcB
  have key : (s1 * s2 + c1 * c2 * cB) ^ 2 =
      (s1 ^ 2 + c1 ^ 2) * (s2 ^ 2 + (c2 * cB) ^ 2) -
        (s1 * c2 * cB - c1 * s2) ^ 2 := by ring
  have h1 : s1 ^ 2 + c1 ^ 2 = 1 := Real.sin_sq_add_cos_sq _
  have h2 : s2 ^ 2 + c2 ^ 2 = 1 := Real.sin_sq_add_cos_sq _
  have hB : cB ^ 2 ≤ 1 := Real.cos_sq_le_one _
  have hc2cB : (c2 * cB) ^ 2 ≤ c2 ^ 2 := by
    have := mul_le_of_le_one_right (sq_nonneg c2) hB
    calc (c2 * cB) ^ 2 = c2 ^ 2 * cB ^ 2 := by ring
    _ ≤ c2 ^ 2 := this
  nlinarith [sq_nonneg (s1 * c2 * cB - c1 * s2)]

lemma cosCentral_abs_le_one (lat1 lon1 lat2 lon2 : ℝ) :
    -1 ≤ cosCentral lat1 lon1 lat2 lon2 ∧ cosCentral lat1 lon1 lat2 lon2 ≤ 1 := by
  have h := cosCentral_sq_le_one lat1 lon1 lat2 lon2
  constructor <;> nlinarith [h]

lemma havA_nonneg (lat1 lon1 lat2 lon2 : ℝ) : 0 ≤ havA lat1 lon1 lat2 lon2 := by
  rw [havA_eq]
  have h := (cosCentral_abs_le_one lat1 lon1 lat2 lon2).2
  linarith

lemma havA_le_one (lat1 lon1 lat2 lon2 : ℝ) : havA lat1 lon1 lat2 lon2 ≤ 1 := by
  rw [havA_eq]
  have h := (cosCentral_abs_le_one lat1 lon1 lat2 lon2).1
  linarith

lemma atan2_sqrt_eq_arcsin {a : ℝ} (h0 : 0 ≤ a) (h1 : a ≤ 1) :
    atan2 (Real.sqrt a) (Real.sqrt (1 - a)) = Real.arcsin (Real.sqrt a) := by
  rcases lt_or_eq_of_le h1 with hlt | heq
  · have hx : 0 < Real.sqrt (1 - a) := Real.sqrt_pos.2 (by linarith)
    unfold atan2
    rw [if_pos hx]
    have hlt1 : Real.sqrt a < 1 := by
      rw [← Real.sqrt_one]
      exact Real.sqrt_lt_sqrt h0 hlt
    rw [Real.arcsin_eq_arctan ⟨by linarith [Real.sqrt_nonneg a], hlt1⟩]
    rw [Real.sq_sqrt h0]
  · subst heq
    unfold atan2
    rw [show (1 : ℝ) - 1 = 0 by ring, Real.sqrt_zero, Real.sqrt_one]
    norm_num [Real.arcsin_one]

lemma calculateDistance_eq (lat1 lon1 lat2 lon2 : ℝ) :
    calculateDistance lat1 lon1 lat2 lon2 =
      12742 * Real.arcsin (Real.sqrt (havA lat1 lon1 lat2 lon2)) := by
  show (6371 : ℝ) *
      (2 * atan2 (Real.sqrt (havA lat1 lon1 lat2 lon2))
        (Real.sqrt (1 - havA lat1 lon1 lat2 lon2))) =
    12742 * Real.arcsin (Real.sqrt (havA lat1 lon1 lat2 lon2))
  rw [atan2_sqrt_eq_arcsin (havA_nonneg lat1 lon1 lat2 lon2)
    (havA_le_one lat1 lon1 lat2 lon2)]
  ring

lemma calculateDistance_self (lat lon : ℝ) :
    calculateDistance lat lon lat lon = 0 := by
  rw [calculateDistance_eq]
  have ha : havA lat lon lat lon = 0 := by
    unfold havA
    simp
  rw [ha, Real.sqrt_zero, Real.arcsin_zero, mul_zero]

lemma sin_ge_sub {x : ℝ} (h0 : 0 ≤ x) (h1 : x ≤ 1) :
    x - x ^ 3 / 6 - x ^ 4 * (5 / 96) ≤ Real.sin x := by
  have hb := Real.sin_bound (show |x| ≤ 1 by rwa [abs_of_nonneg h0])
  rw [abs_of_nonneg h0] at hb
  have h2 := (abs_sub_le_iff.1 hb).2
  linarith

lemma abs_le_of_sq_le_sq {a b : ℝ} (hb : 0 ≤ b) (h : a ^ 2 ≤ b ^ 2) :
    |a| ≤ b := by
  by_contra hc
  push_neg at hc
  have h2 : b ^ 2 < |a| ^ 2 := by
    have := mul_self_lt_mul_self hb hc
    calc b ^ 2 = b * b := by ring
    _ < |a| * |a| := this
    _ = |a| ^ 2 := by ring
  rw [sq_abs] at h2
  linarith

lemma sin_abs_of_abs_le_pi {x : ℝ} (h : |x| ≤ Real.pi) :
    Real.sin |x| = |Real.sin x| := by
  rcases le_or_lt 0 x with hx | hx
  · rw [abs_of_nonneg hx] at h ⊢
    rw [abs_of_nonneg (Real.sin_nonneg_of_nonneg_of_le_pi hx h)]
  · rw [abs_of_neg hx] at h ⊢
    have hs : Real.sin x ≤ 0 := by
      have hn := Real.sin_nonneg_of_nonneg_of_le_pi (neg_nonneg.2 hx.le) h
      rw [Real.sin_neg] at hn
      linarith
    rw [Real.sin_neg, abs_of_nonpos hs]

lemma havA_le_of_dist_le {lat1 lon1 lat2 lon2 r : ℝ} (hr0 : 0 ≤ r)
    (hr10 : r ≤ 10) (h : calculateDistance lat1 lon1 lat2 lon2 ≤ r) :
    havA lat1 lon1 lat2 lon2 ≤ Real.sin (r / 12742) ^ 2 := by
  rw [calculateDistance_eq] at h
  set A := havA lat1 lon1 lat2 lon2 with hA
  have hA0 : 0 ≤ A := havA_nonneg lat1 lon1 lat2 lon2
  have hA1 : A ≤ 1 := havA_le_one lat1 lon1 lat2 lon2
  have hs0 : 0 ≤ Real.sqrt A := Real.sqrt_nonneg A
  have hs1 : Real.sqrt A ≤ 1 := Real.sqrt_le_one.2 hA1
  have harc : Real.arcsin (Real.sqrt A) ≤ r / 12742 := by linarith
  have hpi : (3 : ℝ) < Real.pi := Real.pi_gt_three
  have hr2 : r / 12742 ≤ Real.pi / 2 := by nlinarith
  have hmono : Real.sin (Real.arcsin (Real.sqrt A)) ≤ Real.sin (r / 12742) := by
    refine Real.strictMonoOn_sin.monotoneOn ?_ ?_ harc
    · exact Set.mem_Icc.2 ⟨Real.neg_pi_div_two_le_arcsin _,
        Real.arcsin_le_pi_div_two _⟩
    · refine Set.mem_Icc.2 ⟨by nlinarith, hr2⟩
  rw [Real.sin_arcsin (by linarith) hs1] at hmono
  have hsin0 : 0 ≤ Real.sin (r / 12742) := le_trans hs0 hmono
  calc A = Real.sqrt A ^ 2 := (Real.sq_sqrt hA0).symm
  _ ≤ Real.sin (r / 12742) ^ 2 := by nlinarith

lemma cosCentral_ge_of_dist_le {lat1 lon1 lat2 lon2 r : ℝ} (hr0 : 0 ≤ r)
    (hr10 : r ≤ 10) (h : calculateDistance lat1 lon1 lat2 lon2 ≤ r) :
    Real.cos (r / 6371) ≤ cosCentral lat1 lon1 lat2 lon2 := by
  have h2 := havA_le_of_dist_le hr0 hr10 h
  rw [havA_eq] at h2
  have hs : Real.sin (r / 12742) ^ 2 = (1 - Real.cos (r / 6371)) / 2 := by
    have hh := Real.sin_sq_eq_half_sub (r / 12742)
    rw [show 2 * (r / 12742) = r / 6371 by ring] at hh
    linarith
  linarith

lemma abs_rad_eq (x : ℝ) : |x * Real.pi / 180| = |x| * Real.pi / 180 := by
  rw [abs_div, abs_mul, abs_of_pos Real.pi_pos,
    abs_of_pos (show (0 : ℝ) < 180 by norm_num)]

lemma lat_diff_le_of_dist_le {lat1 lon1 lat2 lon2 r : ℝ}
    (hr01 : 0.1 ≤ r) (hr10 : r ≤ 10)
    (hl1 : |lat1| ≤ 90) (hl2 : |lat2| ≤ 90)
    (hc1 : 0 ≤ Real.cos (lat1 * Real.pi / 180))
    (hc2 : 0 ≤ Real.cos (lat2 * Real.pi / 180))
    (hd : calculateDistance lat1 lon1 lat2 lon2 ≤ r) :
    |lat2 - lat1| ≤ r / 111 := by
  have hπl : 3.141592 < Real.pi := Real.pi_gt_d6
  have hπ3 : (3 : ℝ) < Real.pi := Real.pi_gt_three
  have hA := havA_le_of_dist_le (by linarith) hr10 hd
  set δ := (lat2 - lat1) * Real.pi / 180 with hδ
  have hhav : havA lat1 lon1 lat2 lon2 =
      Real.sin (δ / 2) * Real.sin (δ / 2) +
        Real.cos (lat1 * Real.pi / 180) * Real.cos (lat2 * Real.pi / 180) *
        Real.sin ((lon2 - lon1) * Real.pi / 180 / 2) *
        Real.sin ((lon2 - lon1) * Real.pi / 180 / 2) := rfl
  have hterm : 0 ≤ Real.cos (lat1 * Real.pi / 180) *
      Real.cos (lat2 * Real.pi / 180) *
      Real.sin ((lon2 - lon1) * Real.pi / 180 / 2) *
      Real.sin ((lon2 - lon1) * Real.pi / 180 / 2) := by
    nlinarith [mul_nonneg hc1 hc2,
      sq_nonneg (Real.sin ((lon2 - lon1) * Real.pi / 180 / 2))]
  have h1 : Real.sin (δ / 2) ^ 2 ≤ Real.sin (r / 12742) ^ 2 := by
    rw [hhav] at hA
    nlinarith [hA, hterm]
  have hrs0 : 0 ≤ Real.sin (r / 12742) :=
    Real.sin_nonneg_of_nonneg_of_le_pi (by linarith) (by
      nlinarith)
  have habs : |Real.sin (δ / 2)| ≤ Real.sin (r / 12742) :=
    abs_le_of_sq_le_sq hrs0 h1
  have hδabs : |δ| = |lat2 - lat1| * Real.pi / 180 := abs_rad_eq _
  have hLle : |lat2 - lat1| ≤ 180 := by
    calc |lat2 - lat1| ≤ |lat2| + |lat1| := abs_sub _ _
    _ ≤ 180 := by linarith
  have hδπ : |δ| ≤ Real.pi := by
    rw [hδabs]
    calc |lat2 - lat1| * Real.pi / 180 ≤ 180 * Real.pi / 180 := by
          have := Real.pi_pos
          gcongr
    _ = Real.pi := by ring
  have hhalf : |δ / 2| ≤ Real.pi / 2 := by
    rw [abs_div, abs_of_pos (show (0 : ℝ) < 2 by norm_num)]
    linarith
  have hkey : |δ / 2| ≤ r / 12742 := by
    by_contra hcon
    push_neg at hcon
    have hm : Real.sin (r / 12742) < Real.sin |δ / 2| := by
      refine Real.strictMonoOn_sin ?_ ?_ hcon
      · exact Set.mem_Icc.2 ⟨by linarith, by nlinarith⟩
      · exact Set.mem_Icc.2 ⟨by linarith [abs_nonneg (δ / 2), Real.pi_pos], hhalf⟩
    rw [sin_abs_of_abs_le_pi (by linarith [hhalf, Real.pi_pos])] at hm
    linarith [hm, habs]
  have hδle : |δ| ≤ r / 6371 := by
    rw [abs_div, abs_of_pos (show (0 : ℝ) < 2 by norm_num)] at hkey
    linarith
  rw [hδabs] at hδle
  nlinarith [mul_le_mul_of_nonneg_left hπl.le (abs_nonneg (lat2 - lat1)),
    hδle, abs_nonneg (lat2 - lat1)]

lemma cos_one_deg_le : Real.cos (Real.pi / 180) ≤ 0.999848 := by
  have hπl : 3.141592 < Real.pi := Real.pi_gt_d6
  have hπ4 : Real.pi ≤ 4 := Real.pi_le_four
  have hy0 : (0 : ℝ) < Real.pi / 180 := by positivity
  have hy1 : |Real.pi / 180| ≤ 1 := by
    rw [abs_of_pos hy0]
    linarith
  have hb := (abs_sub_le_iff.1 (Real.cos_bound hy1)).1
  rw [abs_of_pos hy0] at hb
  have h2 : (3.141592 / 180 : ℝ) ^ 2 ≤ (Real.pi / 180) ^ 2 := by gcongr
  have h4 : (Real.pi / 180) ^ 4 ≤ (4 / 180 : ℝ) ^ 4 := by gcongr
  nlinarith [hb, h2, h4]

lemma sin_one_deg_ge : 0.017452 ≤ Real.sin (Real.pi / 180) := by
  have hπl : 3.141592 < Real.pi := Real.pi_gt_d6
  have hπu : Real.pi < 3.141593 := Real.pi_lt_d6
  have h0 : (0 : ℝ) ≤ Real.pi / 180 := by positivity
  have h1 : (Real.pi / 180 : ℝ) ≤ 1 := by linarith [Real.pi_le_four]
  have hs := sin_ge_sub h0 h1
  have h3 : (Real.pi / 180) ^ 3 ≤ (3.141593 / 180 : ℝ) ^ 3 := by gcongr
  have h4 : (Real.pi / 180) ^ 4 ≤ (3.141593 / 180 : ℝ) ^ 4 := by gcongr
  nlinarith [hs, h3, h4]

lemma amplitude_bound (s1 c1 s2 c2 cD : ℝ) (h22 : s2 ^ 2 + c2 ^ 2 = 1) :
    (s1 * s2 + c1 * c2 * cD) ^ 2 ≤ s1 ^ 2 + (c1 * cD) ^ 2 := by
  nlinarith [sq_nonneg (s2 * (c1 * cD) - c2 * s1)]

lemma final_lon_combination {v p r : ℝ} (hv : 0 ≤ v) (hp : 3.141592 < p)
    (h : (19167 / 3456000 : ℝ) * (v * p) ≤ r / 6371) : 111 * v ≤ r := by
  have h2 : 3.141592 * v ≤ v * p := by nlinarith
  nlinarith

set_option maxHeartbeats 1600000 in
lemma lon_diff_le_of_dist_le {lat1 lon1 lat2 lon2 r : ℝ}
    (hr01 : 0.1 ≤ r) (hr10 : r ≤ 10)
    (hl1 : |lat1| < 89) (hl2 : |lat2| ≤ 90)
    (hlon : |lon2 - lon1| ≤ 180)
    (hd : calculateDistance lat1 lon1 lat2 lon2 ≤ r) :
    |lon2 - lon1| ≤ r / (111 * Real.cos (lat1 * Real.pi / 180)) := by
  have hπl : 3.141592 < Real.pi := Real.pi_gt_d6
  have hπ3 : (3 : ℝ) < Real.pi := Real.pi_gt_three
  have hπp : (0 : ℝ) < Real.pi := Real.pi_pos
  set Φ1 := lat1 * Real.pi / 180 with hΦ1
  set Φ2 := lat2 * Real.pi / 180 with hΦ2
  set Δ := (lon2 - lon1) * Real.pi / 180 with hΔdef
  have hΦ1abs : |Φ1| < 89 * Real.pi / 180 := by
    rw [hΦ1, abs_rad_eq]
    have := mul_lt_mul_of_pos_right hl1 hπp
    linarith
  have hΦ1half : |Φ1| < Real.pi / 2 := by
    have h89 : 89 * Real.pi / 180 < Real.pi / 2 := by linarith
    linarith
  have hc1pos : 0 < Real.cos Φ1 :=
    Real.cos_pos_of_mem_Ioo
      (Set.mem_Ioo.2 ⟨(abs_lt.1 hΦ1half).1, (abs_lt.1 hΦ1half).2⟩)
  have hΦ2half : |Φ2| ≤ Real.pi / 2 := by
    rw [hΦ2, abs_rad_eq]
    calc |lat2| * Real.pi / 180 ≤ 90 * Real.pi / 180 := by gcongr
    _ = Real.pi / 2 := by ring
  have hc2 : 0 ≤ Real.cos Φ2 :=
    Real.cos_nonneg_of_mem_Icc
      (Set.mem_Icc.2 ⟨(abs_le.1 hΦ2half).1, (abs_le.1 hΦ2half).2⟩)
  have hc1lb : Real.sin (Real.pi / 180) ≤ Real.cos Φ1 := by
    have h89 : Real.cos (89 * Real.pi / 180) ≤ Real.cos |Φ1| :=
      Real.cos_le_cos_of_nonneg_of_le_pi (abs_nonneg _) (by linarith)
        hΦ1abs.le
    rw [Real.cos_abs] at h89
    rwa [show 89 * Real.pi / 180 = Real.pi / 2 - Real.pi / 180 by ring,
      Real.cos_pi_div_two_sub] at h89
  have hcc := cosCentral_ge_of_dist_le (by linarith) hr10 hd
  have hccE : cosCentral lat1 lon1 lat2 lon2 =
      Real.sin Φ1 * Real.sin Φ2 +
        Real.cos Φ1 * Real.cos Φ2 * Real.cos Δ := rfl
  rw [hccE] at hcc
  have hρub : r / 6371 ≤ 10 / 6371 := by linarith
  have hρ0 : 0 ≤ r / 6371 := by linarith
  have hcosρ : 1 - (r / 6371) ^ 2 / 2 ≤ Real.cos (r / 6371) :=
    Real.one_sub_sq_div_two_le_cos
  have hcosρ_lb : 0.999998 ≤ Real.cos (r / 6371) := by
    have hsq : (r / 6371) ^ 2 ≤ (10 / 6371 : ℝ) ^ 2 :=
      pow_le_pow_left hρ0 hρub 2
    nlinarith [hcosρ, hsq]
  have hcosD : 0 ≤ Real.cos Δ := by
    by_contra hneg
    push_neg at hneg
    have hterm : Real.cos Φ1 * Real.cos Φ2 * Real.cos Δ ≤ 0 :=
      mul_nonpos_of_nonneg_of_nonpos (mul_nonneg hc1pos.le hc2) hneg.le
    have hs2abs : |Real.sin Φ2| ≤ 1 :=
      abs_le.2 ⟨Real.neg_one_le_sin _, Real.sin_le_one _⟩
    have hΦ1π : |Φ1| ≤ Real.pi := by linarith
    have hs1abs : |Real.sin Φ1| ≤ Real.cos (Real.pi / 180) := by
      rw [← sin_abs_of_abs_le_pi hΦ1π]
      have hm : Real.sin |Φ1| ≤ Real.sin (89 * Real.pi / 180) := by
        refine Real.strictMonoOn_sin.monotoneOn ?_ ?_ hΦ1abs.le
        · exact Set.mem_Icc.2 ⟨by linarith [abs_nonneg Φ1], hΦ1half.le⟩
        · exact Set.mem_Icc.2 ⟨by linarith, by linarith⟩
      rwa [show 89 * Real.pi / 180 = Real.pi / 2 - Real.pi / 180 by ring,
        Real.sin_pi_div_two_sub] at hm
    have hcosd_pos : 0 ≤ Real.cos (Real.pi / 180) := by
      apply Real.cos_nonneg_of_mem_Icc
      exact Set.mem_Icc.2 ⟨by linarith, by linarith⟩
    have hprod : Real.sin Φ1 * Real.sin Φ2 ≤ Real.cos (Real.pi / 180) := by
      calc Real.sin Φ1 * Real.sin Φ2 ≤ |Real.sin Φ1 * Real.sin Φ2| :=
            le_abs_self _
      _ = |Real.sin Φ1| * |Real.sin Φ2| := abs_mul _ _
      _ ≤ Real.cos (Real.pi / 180) * 1 :=
            mul_le_mul hs1abs hs2abs (abs_nonneg _) hcosd_pos
      _ = Real.cos (Real.pi / 180) := mul_one _
    have hcd := cos_one_deg_le
    linarith
  have hΔabs : |Δ| = |lon2 - lon1| * Real.pi / 180 := abs_rad_eq _
  have hΔπ : |Δ| ≤ Real.pi := by
    rw [hΔabs]
    calc |lon2 - lon1| * Real.pi / 180 ≤ 180 * Real.pi / 180 := by gcongr
    _ = Real.pi := by ring
  have hΔhalf : |Δ| ≤ Real.pi / 2 := by
    by_contra hcon
    push_neg at hcon
    have hneg : Real.cos |Δ| < 0 :=
      Real.cos_neg_of_pi_div_two_lt_of_lt hcon (by linarith)
    rw [Real.cos_abs] at hneg
    linarith
  have hE2 : (Real.sin Φ1 * Real.sin Φ2 +
      Real.cos Φ1 * Real.cos Φ2 * Real.cos Δ) ^ 2 ≤
      Real.sin Φ1 ^ 2 + (Real.cos Φ1 * Real.cos Δ) ^ 2 :=
    amplitude_bound _ _ _ _ _ (Real.sin_sq_add_cos_sq Φ2)
  have hcos2 : Real.cos (r / 6371) ^ 2 ≤
      (Real.sin Φ1 * Real.sin Φ2 +
        Real.cos Φ1 * Real.cos Φ2 * Real.cos Δ) ^ 2 :=
    pow_le_pow_left (by linarith) hcc 2
  have hprodid : (Real.cos Φ1 * Real.cos Δ) ^ 2 =
      Real.cos Φ1 ^ 2 - (Real.cos Φ1 * Real.sin Δ) ^ 2 := by
    have hcΔ : Real.cos Δ ^ 2 = 1 - Real.sin Δ ^ 2 := by
      have := Real.sin_sq_add_cos_sq Δ
      linarith
    linear_combination Real.cos Φ1 ^ 2 * hcΔ
  have hkey : (Real.cos Φ1 * Real.sin Δ) ^ 2 ≤ Real.sin (r / 6371) ^ 2 := by
    have hs1 : Real.sin Φ1 ^ 2 = 1 - Real.cos Φ1 ^ 2 := by
      have := Real.sin_sq_add_cos_sq Φ1
      linarith
    have hρid : Real.sin (r / 6371) ^ 2 = 1 - Real.cos (r / 6371) ^ 2 := by
      have := Real.sin_sq_add_cos_sq (r / 6371)
      linarith
    linarith [hE2, hcos2, hprodid, hs1, hρid]
  have hsinρ0 : 0 ≤ Real.sin (r / 6371) :=
    Real.sin_nonneg_of_nonneg_of_le_pi hρ0 (by linarith)
  have habs2 : |Real.cos Φ1 * Real.sin Δ| ≤ Real.sin (r / 6371) :=
    abs_le_of_sq_le_sq hsinρ0 hkey
  rw [abs_mul, abs_of_pos hc1pos] at habs2
  have hsinρle : Real.sin (r / 6371) ≤ r / 6371 := sin_le_self hρ0
  have hz : Real.cos Φ1 * Real.sin |Δ| ≤ r / 6371 := by
    rw [sin_abs_of_abs_le_pi hΔπ]
    linarith
  have hsin1d := sin_one_deg_ge
  have hz01 : |Δ| < 0.1 := by
    by_contra hcon
    push_neg at hcon
    have hm : Real.sin 0.1 ≤ Real.sin |Δ| := by
      refine Real.strictMonoOn_sin.monotoneOn ?_ ?_ hcon
      · exact Set.mem_Icc.2 ⟨by linarith, by linarith⟩
      · exact Set.mem_Icc.2 ⟨by linarith [abs_nonneg Δ], hΔhalf⟩
    have hs01 : (0.0998 : ℝ) ≤ Real.sin 0.1 := by
      have := sin_ge_sub (show (0 : ℝ) ≤ 0.1 by norm_num) (by norm_num)
      linarith
    have hge : (0.017452 : ℝ) * 0.0998 ≤ Real.cos Φ1 * Real.sin |Δ| :=
      mul_le_mul (by linarith) (by linarith) (by norm_num) (by linarith)
    have hub : r / 6371 ≤ 10 / 6371 := by linarith
    linarith
  have hΔ1 : |Δ| ≤ 1 := by linarith
  have hsz := sin_ge_sub (abs_nonneg Δ) hΔ1
  have h2sq : |Δ| * |Δ| ≤ 0.01 := by
    have := mul_le_mul hz01.le hz01.le (abs_nonneg Δ) (by norm_num)
    linarith
  have h3 : |Δ| ^ 3 ≤ 0.01 * |Δ| := by
    calc |Δ| ^ 3 = |Δ| * |Δ| * |Δ| := by ring
    _ ≤ 0.01 * |Δ| := mul_le_mul_of_nonneg_right h2sq (abs_nonneg Δ)
  have h4 : |Δ| ^ 4 ≤ 0.001 * |Δ| := by
    have hstep : |Δ| * |Δ| ≤ 0.1 * |Δ| :=
      mul_le_mul_of_nonneg_right hz01.le (abs_nonneg Δ)
    calc |Δ| ^ 4 = |Δ| ^ 3 * |Δ| := by ring
    _ ≤ 0.01 * |Δ| * |Δ| := mul_le_mul_of_nonneg_right h3 (abs_nonneg Δ)
    _ = 0.01 * (|Δ| * |Δ|) := by ring
    _ ≤ 0.01 * (0.1 * |Δ|) := by linarith
    _ = 0.001 * |Δ| := by ring
  have hlow : (19167 / 19200 : ℝ) * |Δ| ≤ Real.sin |Δ| := by linarith
  have hchain : Real.cos Φ1 * ((19167 / 19200 : ℝ) * |Δ|) ≤ r / 6371 := by
    have := mul_le_mul_of_nonneg_left hlow hc1pos.le
    linarith
  rw [le_div_iff (by positivity : (0 : ℝ) < 111 * Real.cos Φ1)]
  rw [hΔabs] at hchain
  have hv0 : 0 ≤ Real.cos Φ1 * |lon2 - lon1| := by positivity
  have hchain2 : (19167 / 3456000 : ℝ) *
      (Real.cos Φ1 * |lon2 - lon1| * Real.pi) ≤ r / 6371 := by
    calc (19167 / 3456000 : ℝ) * (Real.cos Φ1 * |lon2 - lon1| * Real.pi)
        = Real.cos Φ1 * (19167 / 19200 * (|lon2 - lon1| * Real.pi / 180)) := by
          ring
    _ ≤ r / 6371 := hchain
  have hfin := final_lon_combination hv0 hπl hchain2
  calc |lon2 - lon1| * (111 * Real.cos Φ1)
      = 111 * (Real.cos Φ1 * |lon2 - lon1|) := by ring
  _ ≤ r := hfin

lemma cos_deg_nonneg {x : ℝ} (h : |x| ≤ 90) :
    0 ≤ Real.cos (x * Real.pi / 180) := by
  apply Real.cos_nonneg_of_mem_Icc
  have habs : |x * Real.pi / 180| ≤ Real.pi / 2 := by
    rw [abs_rad_eq]
    calc |x| * Real.pi / 180 ≤ 90 * Real.pi / 180 := by gcongr
    _ = Real.pi / 2 := by ring
  exact Set.mem_Icc.2 ⟨(abs_le.1 habs).1, (abs_le.1 habs).2⟩

/-- Main soundness of the bounding-box pre-filter away from the antimeridian:
any point within haversine distance `r` of the center lies inside the box. -/
lemma inBoundingBox_of_dist_le {lat0 lon0 lat lon r : ℝ}
    (hr01 : 0.1 ≤ r) (hr10 : r ≤ 10)
    (hlat0l : -89 < lat0) (hlat0u : lat0 < 89)
    (hlatl : -90 ≤ lat) (hlatu : lat ≤ 90)
    (hlon : |lon - lon0| ≤ 180)
    (hd : calculateDistance lat0 lon0 lat lon ≤ r) :
    inBoundingBox lat0 lon0 r lat lon := by
  have h0abs : |lat0| < 89 := abs_lt.2 ⟨hlat0l, hlat0u⟩
  have h0abs' : |lat0| ≤ 90 := by linarith
  have hiabs : |lat| ≤ 90 := abs_le.2 ⟨hlatl, hlatu⟩
  have hlatdiff : |lat - lat0| ≤ r / 111 :=
    lat_diff_le_of_dist_le hr01 hr10 h0abs' hiabs
      (cos_deg_nonneg h0abs') (cos_deg_nonneg hiabs) hd
  have hlondiff : |lon - lon0| ≤ r / (111 * Real.cos (lat0 * Real.pi / 180)) :=
    lon_diff_le_of_dist_le hr01 hr10 h0abs hiabs hlon hd
  have h1 := abs_le.1 hlatdiff
  have h2 := abs_le.1 hlondiff
  unfold inBoundingBox latRange lonRange
  refine ⟨by linarith [h1.1], by linarith [h1.2], by linarith [h2.1],
    by linarith [h2.2]⟩

/-! ### Stability of the insertion sort model -/

section Sorting

variable {α : Type} {r S : α → α → Prop} [DecidableRel r]

lemma pairwise_orderedInsert
    (total : ∀ a b, r a b ∨ r b a) (htrans : ∀ a b c, r a b → r b c → r a c)
    (x : α) {m : List α}
    (hm : m.Pairwise (fun a b => r a b ∧ (r b a → S a b)))
    (hx : ∀ y ∈ m, S x y) :
    (m.orderedInsert r x).Pairwise (fun a b => r a b ∧ (r b a → S a b)) := by
  induction m with
  | nil => simp
  | cons b m ih =>
    rw [List.orderedInsert]
    obtain ⟨hb, hm'⟩ := List.pairwise_cons.1 hm
    by_cases hrb : r x b
    · rw [if_pos hrb]
      refine List.pairwise_cons.2 ⟨?_, hm⟩
      intro z hz
      rcases List.mem_cons.1 hz with rfl | hz'
      · exact ⟨hrb, fun _ => hx z (List.mem_cons_self _ _)⟩
      · exact ⟨htrans x b z hrb (hb z hz').1,
          fun _ => hx z (List.mem_cons_of_mem _ hz')⟩
    · rw [if_neg hrb]
      refine List.pairwise_cons.2
        ⟨?_, ih hm' (fun y hy => hx y (List.mem_cons_of_mem _ hy))⟩
      intro z hz
      have hz' : z = x ∨ z ∈ m := by
        have hmem := (List.perm_orderedInsert r x m).mem_iff.1 hz
        simpa using hmem
      rcases hz' with rfl | hz'
      · exact ⟨(total z b).resolve_left hrb, fun hxb => absurd hxb hrb⟩
      · exact hb z hz'

/-- Stability of insertion sort: sorting a `Pairwise S` list by a total
transitive relation `r` produces a list that is sorted by `r` and whose
`r`-ties retain the `S` order. -/
lemma pairwise_insertionSort
    (total : ∀ a b, r a b ∨ r b a) (htrans : ∀ a b c, r a b → r b c → r a c)
    {l : List α} (hl : l.Pairwise S) :
    (l.insertionSort r).Pairwise (fun a b => r a b ∧ (r b a → S a b)) := by
  induction l with
  | nil => simp
  | cons x l ih =>
    obtain ⟨hx, hl'⟩ := List.pairwise_cons.1 hl
    rw [List.insertionSort]
    exact pairwise_orderedInsert total htrans x (ih hl')
      (fun y hy => hx y ((List.mem_insertionSort r).1 hy))

end Sorting

/-! ### Membership lemmas for the list route -/

lemma mem_dbFilter {category status : Option String}
    {center : Option (ℝ × ℝ)} {radius : ℝ} {issues : List Issue} {i : Issue} :
    i ∈ dbFilter category status center radius issues ↔
      i ∈ issues ∧ dbPass category status center radius i := by
  unfold dbFilter
  rw [List.mem_filter]
  simp

lemma mem_listVisibleIssues_some {category status : Option String}
    {c : ℝ × ℝ} {radius : ℝ} {page limit : ℕ} {issues : List Issue}
    {i : Issue} :
    i ∈ listVisibleIssues category status (some c) radius page limit issues ↔
      i ∈ pagedCandidates category status (some c) radius page limit issues ∧
        distanceTo c i ≤ radius := by
  show i ∈ ((pagedCandidates category status (some c) radius page limit
      issues).filter fun j => decide (distanceTo c j ≤ radius)).insertionSort
      (distLE c) ↔ _
  rw [List.mem_insertionSort, List.mem_filter]
  simp

lemma mem_issues_of_mem_pagedCandidates {category status : Option String}
    {center : Option (ℝ × ℝ)} {radius : ℝ} {page limit : ℕ}
    {issues : List Issue} {i : Issue}
    (h : i ∈ pagedCandidates category status center radius page limit issues) :
    i ∈ issues ∧ dbPass category status center radius i := by
  unfold pagedCandidates at h
  have h1 := List.mem_of_mem_take h
  have h2 := List.mem_of_mem_drop h1
  rw [List.mem_insertionSort] at h2
  exact mem_dbFilter.1 h2

/-! ### Properties of the flag route -/

lemma submitFlag_notFound {s : Store} {issueId userId flagId : ℕ}
    {reason : Option String}
    (h : s.issues.find? (fun i => i.id == issueId) = none) :
    submitFlag s issueId userId flagId reason = ⟨s, some ApiError.notFound⟩ := by
  unfold submitFlag
  rw [h]

lemma submitFlag_forbidden {s : Store} {issueId userId flagId : ℕ}
    {reason : Option String} {issue : Issue}
    (hfind : s.issues.find? (fun i => i.id == issueId) = some issue)
    (hrep : issue.reporter_id = some userId) :
    submitFlag s issueId userId flagId reason =
      ⟨s, some ApiError.forbidden⟩ := by
  unfold submitFlag
  rw [hfind]
  dsimp only
  rw [if_pos hrep]

lemma submitFlag_duplicate {s : Store} {issueId userId flagId : ℕ}
    {reason : Option String} {issue : Issue} {f : IssueFlagRec}
    (hfind : s.issues.find? (fun i => i.id == issueId) = some issue)
    (hrep : issue.reporter_id ≠ some userId)
    (hdup : s.flags.find?
      (fun f => f.issue_id == issueId && f.flagged_by == userId) = some f) :
    submitFlag s issueId userId flagId reason =
      ⟨s, some ApiError.validation⟩ := by
  unfold submitFlag
  rw [hfind]
  dsimp only
  rw [if_neg hrep, hdup]

lemma submitFlag_ok {s : Store} {issueId userId flagId : ℕ}
    {reason : Option String}
    (h : (submitFlag s issueId userId flagId reason).error = none) :
    ∃ issue, s.issues.find? (fun i => i.id == issueId) = some issue ∧
      issue.reporter_id ≠ some userId ∧
      s.flags.find?
        (fun f => f.issue_id == issueId && f.flagged_by == userId) = none ∧
      submitFlag s issueId userId flagId reason =
        ⟨⟨if 3 ≤ (flagsOf issueId
              (s.flags ++ [⟨flagId, issueId, userId, reason⟩])).length
            then setHidden issueId (incFlagCount issueId s.issues)
            else incFlagCount issueId s.issues,
          s.flags ++ [⟨flagId, issueId, userId, reason⟩]⟩, none⟩ := by
  cases hfind : s.issues.find? (fun i => i.id == issueId) with
  | none =>
    rw [submitFlag_notFound hfind] at h
    exact absurd h (by simp)
  | some issue =>
    by_cases hrep : issue.reporter_id = some userId
    · rw [submitFlag_forbidden hfind hrep] at h
      exact absurd h (by simp)
    · cases hdup : s.flags.find?
          (fun f => f.issue_id == issueId && f.flagged_by == userId) with
      | some f =>
        rw [submitFlag_duplicate hfind hrep hdup] at h
        exact absurd h (by simp)
      | none =>
        refine ⟨issue, rfl, hrep, rfl, ?_⟩
        unfold submitFlag
        rw [hfind]
        dsimp only
        rw [if_neg hrep, hdup]

lemma id_of_incFlagCount_fun (issueId : ℕ) (i : Issue) :
    (if i.id = issueId then { i with flag_count := i.flag_count + 1 }
      else i).id = i.id := by
  split <;> rfl

lemma id_of_setHidden_fun (issueId : ℕ) (i : Issue) :
    (if i.id = issueId then { i with is_hidden := true } else i).id = i.id := by
  split <;> rfl

lemma flagsOf_append_match (issueId flagId userId : ℕ)
    (reason : Option String) (flags : List IssueFlagRec) :
    flagsOf issueId (flags ++ [⟨flagId, issueId, userId, reason⟩]) =
      flagsOf issueId flags ++ [⟨flagId, issueId, userId, reason⟩] := by
  unfold flagsOf
  rw [List.filter_append]
  simp

lemma flagsOf_append_other {issueId otherId : ℕ} (flagId userId : ℕ)
    (reason : Option String) (flags : List IssueFlagRec)
    (hne : issueId ≠ otherId) :
    flagsOf otherId (flags ++ [⟨flagId, issueId, userId, reason⟩]) =
      flagsOf otherId flags := by
  unfold flagsOf
  rw [List.filter_append]
  simp [hne]

lemma submitFlag_store_of_error {s : Store} {issueId userId flagId : ℕ}
    {reason : Option String}
    (h : (submitFlag s issueId userId flagId reason).error ≠ none) :
    (submitFlag s issueId userId flagId reason).store = s := by
  cases hfind : s.issues.find? (fun i => i.id == issueId) with
  | none => rw [submitFlag_notFound hfind]
  | some issue =>
    by_cases hrep : issue.reporter_id = some userId
    · rw [submitFlag_forbidden hfind hrep]
    · cases hdup : s.flags.find?
          (fun f => f.issue_id == issueId && f.flagged_by == userId) with
      | some f => rw [submitFlag_duplicate hfind hrep hdup]
      | none =>
        exfalso
        apply h
        unfold submitFlag
        rw [hfind]
        dsimp only
        rw [if_neg hrep, hdup]

lemma mem_succ_issues {issueId : ℕ} {l : List Issue} {j : Issue}
    {useHidden : Bool}
    (hj : j ∈ (if useHidden then setHidden issueId (incFlagCount issueId l)
      else incFlagCount issueId l)) :
    ∃ i ∈ l, j.id = i.id ∧
      (i.id = issueId → j.flag_count = i.flag_count + 1 ∧
        j.is_hidden = (useHidden || i.is_hidden)) ∧
      (i.id ≠ issueId → j = i) := by
  cases useHidden with
  | false =>
    rw [if_neg (by simp)] at hj
    unfold incFlagCount at hj
    obtain ⟨i, hi, rfl⟩ := List.mem_map.1 hj
    refine ⟨i, hi, ?_, ?_, ?_⟩
    · by_cases hid : i.id = issueId <;> simp [hid]
    · intro hid
      simp [hid]
    · intro hid
      simp [hid]
  | true =>
    rw [if_pos rfl] at hj
    unfold setHidden incFlagCount at hj
    rw [List.map_map] at hj
    obtain ⟨i, hi, rfl⟩ := List.mem_map.1 hj
    refine ⟨i, hi, ?_, ?_, ?_⟩
    · by_cases hid : i.id = issueId <;> simp [hid]
    · intro hid
      simp [hid]
    · intro hid
      simp [hid]

lemma succ_issues_image {issueId : ℕ} {l : List Issue} {i : Issue}
    {useHidden : Bool} (hi : i ∈ l) :
    ∃ j ∈ (if useHidden then setHidden issueId (incFlagCount issueId l)
      else incFlagCount issueId l), j.id = i.id := by
  cases useHidden with
  | false =>
    rw [if_neg (by simp)]
    refine ⟨_, List.mem_map.2 ⟨i, hi, rfl⟩, ?_⟩
    by_cases hid : i.id = issueId <;> simp [hid]
  | true =>
    rw [if_pos rfl]
    unfold setHidden incFlagCount
    rw [List.map_map]
    refine ⟨_, List.mem_map.2 ⟨i, hi, rfl⟩, ?_⟩
    by_cases hid : i.id = issueId <;> simp [hid]

lemma storeInv_submitFlag {s : Store} (issueId userId flagId : ℕ)
    (reason : Option String) (hinv : StoreInv s) :
    StoreInv (submitFlag s issueId userId flagId reason).store := by
  obtain ⟨hnodup, hcount, href⟩ := hinv
  by_cases herr : (submitFlag s issueId userId flagId reason).error = none
  case neg =>
    rw [submitFlag_store_of_error herr]
    exact ⟨hnodup, hcount, href⟩
  obtain ⟨issue, hfind, hrep, hdup, heq⟩ := submitFlag_ok herr
  have hissuemem := List.mem_of_find?_eq_some hfind
  have hissueid : issue.id = issueId := by
    have := List.find?_some hfind
    simpa using this
  rw [heq]
  set newFlag : IssueFlagRec := ⟨flagId, issueId, userId, reason⟩ with hnf
  set cond := 3 ≤ (flagsOf issueId (s.flags ++ [newFlag])).length with hcond
  have hshape : (if cond then setHidden issueId (incFlagCount issueId s.issues)
        else incFlagCount issueId s.issues) =
      (if (if cond then true else false) = true
        then setHidden issueId (incFlagCount issueId s.issues)
        else incFlagCount issueId s.issues) := by
    by_cases h : cond <;> simp [h]
  refine ⟨?_, ?_, ?_⟩
  · show (if cond then setHidden issueId (incFlagCount issueId s.issues)
        else incFlagCount issueId s.issues).Pairwise _
    have hpair1 : (incFlagCount issueId s.issues).Pairwise
        (fun a b => a.id ≠ b.id) := by
      unfold incFlagCount
      rw [List.pairwise_map]
      refine hnodup.imp ?_
      intro a b h
      rw [id_of_incFlagCount_fun, id_of_incFlagCount_fun]
      exact h
    by_cases h : cond
    · rw [if_pos h]
      unfold setHidden
      rw [List.pairwise_map]
      refine hpair1.imp ?_
      intro a b hab
      rw [id_of_setHidden_fun, id_of_setHidden_fun]
      exact hab
    · rw [if_neg h]
      exact hpair1
  · intro j hj
    rw [hshape] at hj
    obtain ⟨i, hi, hjid, hmatch, hnomatch⟩ := mem_succ_issues hj
    by_cases hid : i.id = issueId
    · obtain ⟨hfc, _⟩ := hmatch hid
      rw [hjid, hid, hfc, hcount i hi, hid]
      show (flagsOf issueId s.flags).length + 1 =
        (flagsOf issueId (s.flags ++ [newFlag])).length
      rw [flagsOf_append_match]
      rw [List.length_append]
      rfl
    · rw [hjid, hnomatch hid, hcount i hi]
      show (flagsOf i.id s.flags).length =
        (flagsOf i.id (s.flags ++ [newFlag])).length
      rw [flagsOf_append_other flagId userId reason s.flags
        (fun hh => hid hh.symm)]
  · intro f hf
    rcases List.mem_append.1 hf with hf' | hf'
    · obtain ⟨i, hi, hid⟩ := href f hf'
      rw [hshape]
      obtain ⟨j, hj, hjid⟩ := succ_issues_image hi
      exact ⟨j, hj, by rw [hjid, hid]⟩
    · rcases List.mem_singleton.1 hf' with rfl
      rw [hshape]
      obtain ⟨j, hj, hjid⟩ := succ_issues_image hissuemem
      exact ⟨j, hj, by rw [hjid, hissueid]⟩

/-- Every reachable store satisfies the data-model invariant. -/
lemma reachable_storeInv {s : Store} (h : Reachable s) : StoreInv s := by
  induction h with
  | init =>
    exact ⟨List.Pairwise.nil, by simp, by simp⟩
  | create s issue hs hfresh hfc hh ih =>
    obtain ⟨hnodup, hcount, href⟩ := ih
    refine ⟨?_, ?_, ?_⟩
    · rw [List.pairwise_append]
      refine ⟨hnodup, List.pairwise_singleton _ _, ?_⟩
      intro a ha b hb
      rcases List.mem_singleton.1 hb with rfl
      exact hfresh a ha
    · intro i hi
      rcases List.mem_append.1 hi with hi' | hi'
      · exact hcount i hi'
      · rcases List.mem_singleton.1 hi' with rfl
        rw [hfc]
        have hempty : flagsOf i.id s.flags = [] := by
          unfold flagsOf
          rw [List.filter_eq_nil]
          intro f hf
          simp only [beq_iff_eq]
          intro hbeq
          obtain ⟨i', hi', hid⟩ := href f hf
          exact hfresh i' hi' (by rw [hid, hbeq])
        rw [hempty]
        rfl
    · intro f hf
      obtain ⟨i, hi, hid⟩ := href f hf
      exact ⟨i, List.mem_append_left _ hi, hid⟩
  | flag s issueId userId flagId reason hs ih =>
    exact storeInv_submitFlag issueId userId flagId reason ih

lemma eq_of_mem_pairwise_ne {l : List Issue}
    (h : l.Pairwise (fun a b => a.id ≠ b.id)) {i j : Issue}
    (hi : i ∈ l) (hj : j ∈ l) (hid : i.id = j.id) : i = j := by
  induction l with
  | nil => cases hi
  | cons a t ih =>
    obtain ⟨ha, ht⟩ := List.pairwise_cons.1 h
    rcases List.mem_cons.1 hi with rfl | hi' <;>
      rcases List.mem_cons.1 hj with rfl | hj'
    · rfl
    · exact absurd hid (ha j hj')
    · exact absurd hid.symm (ha i hi')
    · exact ih ht hi' hj'

/-! ### Concrete distance evaluations and arcsin estimates -/

lemma calculateDistance_antimeridian_west :
    calculateDistance 0 (-180) 0 180 = 0 := by
  rw [calculateDistance_eq]
  have ha : havA 0 (-180) 0 180 = 0 := by
    show Real.sin (((0 : ℝ) - 0) * Real.pi / 180 / 2) *
        Real.sin (((0 : ℝ) - 0) * Real.pi / 180 / 2) +
      Real.cos ((0 : ℝ) * Real.pi / 180) * Real.cos ((0 : ℝ) * Real.pi / 180) *
        Real.sin (((180 : ℝ) - -180) * Real.pi / 180 / 2) *
        Real.sin (((180 : ℝ) - -180) * Real.pi / 180 / 2) = 0
    rw [show ((0 : ℝ) - 0) * Real.pi / 180 / 2 = 0 by ring,
      show ((180 : ℝ) - -180) * Real.pi / 180 / 2 = Real.pi by ring,
      Real.sin_zero, Real.sin_pi]
    ring
  rw [ha, Real.sqrt_zero, Real.arcsin_zero, mul_zero]

lemma calculateDistance_antimeridian_east :
    calculateDistance 0 180 0 (-180) = 0 := by
  rw [calculateDistance_eq]
  have ha : havA 0 180 0 (-180) = 0 := by
    show Real.sin (((0 : ℝ) - 0) * Real.pi / 180 / 2) *
        Real.sin (((0 : ℝ) - 0) * Real.pi / 180 / 2) +
      Real.cos ((0 : ℝ) * Real.pi / 180) * Real.cos ((0 : ℝ) * Real.pi / 180) *
        Real.sin (((-180 : ℝ) - 180) * Real.pi / 180 / 2) *
        Real.sin (((-180 : ℝ) - 180) * Real.pi / 180 / 2) = 0
    rw [show ((0 : ℝ) - 0) * Real.pi / 180 / 2 = 0 by ring,
      show ((-180 : ℝ) - 180) * Real.pi / 180 / 2 = -Real.pi by ring,
      Real.sin_zero, Real.sin_neg, Real.sin_pi]
    ring
  rw [ha, Real.sqrt_zero, Real.arcsin_zero, mul_zero]

lemma not_dbPass_antimeridian :
    ¬ dbPass none none (some (0, -180)) 5 antimeridianIssue := by
  rintro ⟨-, -, -, hbox⟩
  have hb := hbox (0, -180) rfl
  obtain ⟨-, -, -, h4⟩ := hb
  unfold lonRange at h4
  rw [show (0 : ℝ) * Real.pi / 180 = 0 by ring, Real.cos_zero] at h4
  norm_num [antimeridianIssue] at h4

lemma listVisible_antimeridian_empty :
    listVisibleIssues none none (some (0, -180)) 5 1 20 [antimeridianIssue] =
      [] := by
  have hfil : dbFilter none none (some (0, -180)) 5 [antimeridianIssue] =
      [] := by
    unfold dbFilter
    rw [List.filter_eq_nil]
    intro a ha
    rcases List.mem_singleton.1 ha with rfl
    simp [not_dbPass_antimeridian]
  unfold listVisibleIssues pagedCandidates
  rw [hfil]
  simp

lemma le_arcsin_self {y : ℝ} (h0 : 0 ≤ y) (h1 : y ≤ 1) :
    y ≤ Real.arcsin y := by
  have hπ3 : (3 : ℝ) < Real.pi := Real.pi_gt_three
  rw [Real.le_arcsin_iff_sin_le (Set.mem_Icc.2 ⟨by linarith, by linarith⟩)
    (Set.mem_Icc.2 ⟨by linarith, h1⟩)]
  exact sin_le_self h0

lemma arcsin_le_add_cube {y : ℝ} (h0 : 0 ≤ y) (h1 : y ≤ 1 / 2) :
    Real.arcsin y ≤ y + y ^ 3 := by
  rcases eq_or_lt_of_le h0 with heq | hpos
  · rw [← heq]
    simp [Real.arcsin_zero]
  · have hπ3 : (3 : ℝ) < Real.pi := Real.pi_gt_three
    have hy3 : y ^ 3 ≤ (1 / 2 : ℝ) ^ 3 := pow_le_pow_left h0 h1 3
    have hw0 : 0 ≤ y + y ^ 3 := by positivity
    have hw1 : y + y ^ 3 ≤ 1 := by nlinarith
    have hy2 : 1 + y ^ 2 ≤ 5 / 4 := by nlinarith [pow_le_pow_left h0 h1 2]
    have h125 : (1 + y ^ 2) ^ 3 ≤ 4 := by
      calc (1 + y ^ 2) ^ 3 ≤ (5 / 4 : ℝ) ^ 3 :=
            pow_le_pow_left (by positivity) hy2 3
      _ ≤ 4 := by norm_num
    have hcube : (y + y ^ 3) ^ 3 ≤ 4 * y ^ 3 := by
      calc (y + y ^ 3) ^ 3 = y ^ 3 * (1 + y ^ 2) ^ 3 := by ring
      _ ≤ y ^ 3 * 4 := mul_le_mul_of_nonneg_left h125 (by positivity)
      _ = 4 * y ^ 3 := by ring
    have hsin : y ≤ Real.sin (y + y ^ 3) := by
      have hc := Real.sin_gt_sub_cube (by positivity) hw1
      linarith [hc, hcube]
    have harc := Real.monotone_arcsin hsin
    rwa [Real.arcsin_sin (by linarith) (by linarith)] at harc

set_option maxHeartbeats 1600000 in
lemma example_distance_bounds :
    5 < calculateDistance 40.7589 (-73.9851) 40.7128 (-74.0060) ∧
      calculateDistance 40.7589 (-73.9851) 40.7128 (-74.0060) ≤ 6 := by
  have hπl : 3.141592 < Real.pi := Real.pi_gt_d6
  have hπu : Real.pi < 3.141593 := Real.pi_lt_d6
  have hπp : (0 : ℝ) < Real.pi := Real.pi_pos
  set t1 : ℝ := 0.0461 * Real.pi / 360 with ht1
  set t2 : ℝ := 0.0209 * Real.pi / 360 with ht2
  have ht1l : 0.0004022 ≤ t1 := by rw [ht1]; nlinarith
  have ht1u : t1 ≤ 0.0004023 := by rw [ht1]; nlinarith
  have ht2l : (0 : ℝ) ≤ t2 := by rw [ht2]; positivity
  have ht2u : t2 ≤ 0.00018239 := by rw [ht2]; nlinarith
  have hAeq : havA 40.7589 (-73.9851) 40.7128 (-74.0060) =
      Real.sin t1 * Real.sin t1 +
        Real.cos (40.7589 * Real.pi / 180) *
          Real.cos (40.7128 * Real.pi / 180) *
          Real.sin t2 * Real.sin t2 := by
    show Real.sin (((40.7128 : ℝ) - 40.7589) * Real.pi / 180 / 2) *
        Real.sin (((40.7128 : ℝ) - 40.7589) * Real.pi / 180 / 2) +
      Real.cos ((40.7589 : ℝ) * Real.pi / 180) *
        Real.cos ((40.7128 : ℝ) * Real.pi / 180) *
        Real.sin (((-74.0060 : ℝ) - -73.9851) * Real.pi / 180 / 2) *
        Real.sin (((-74.0060 : ℝ) - -73.9851) * Real.pi / 180 / 2) = _
    have e1 : ((40.7128 : ℝ) - 40.7589) * Real.pi / 180 / 2 = -t1 := by
      rw [ht1, show (40.7128 : ℝ) - 40.7589 = -0.0461 by norm_num]
      ring
    have e2 : ((-74.0060 : ℝ) - -73.9851) * Real.pi / 180 / 2 = -t2 := by
      rw [ht2, show (-74.0060 : ℝ) - -73.9851 = -0.0209 by norm_num]
      ring
    rw [e1, e2]
    simp only [Real.sin_neg]
    ring
  have hs1l : (0.000402 : ℝ) ≤ Real.sin t1 := by
    have hgt := Real.sin_gt_sub_cube (show (0 : ℝ) < t1 by linarith)
      (show t1 ≤ 1 by linarith)
    have hcube : t1 ^ 3 ≤ (0.0004023 : ℝ) ^ 3 :=
      pow_le_pow_left (by linarith) ht1u 3
    nlinarith [hgt, hcube]
  have hs1u : Real.sin t1 ≤ 0.0004023 :=
    le_trans (sin_le_self (by linarith)) ht1u
  have hs1pos : (0 : ℝ) < Real.sin t1 := by linarith
  have hs2u : Real.sin t2 ≤ 0.00018239 := le_trans (sin_le_self ht2l) ht2u
  have hs20 : 0 ≤ Real.sin t2 :=
    Real.sin_nonneg_of_nonneg_of_le_pi ht2l (by nlinarith)
  have hc1 : 0 ≤ Real.cos (40.7589 * Real.pi / 180) :=
    cos_deg_nonneg (abs_le.2 ⟨by norm_num, by norm_num⟩)
  have hc2 : 0 ≤ Real.cos (40.7128 * Real.pi / 180) :=
    cos_deg_nonneg (abs_le.2 ⟨by norm_num, by norm_num⟩)
  have hc1u : Real.cos (40.7589 * Real.pi / 180) ≤ 1 := Real.cos_le_one _
  have hc2u : Real.cos (40.7128 * Real.pi / 180) ≤ 1 := Real.cos_le_one _
  rw [(show calculateDistance 40.7589 (-73.9851) 40.7128 (-74.0060) =
    12742 * Real.arcsin
      (Real.sqrt (havA 40.7589 (-73.9851) 40.7128 (-74.0060))) from
    calculateDistance_eq _ _ _ _)]
  set A := havA 40.7589 (-73.9851) 40.7128 (-74.0060) with hA
  have hA0 : 0 ≤ A := havA_nonneg _ _ _ _
  have hA1 : A ≤ 1 := havA_le_one _ _ _ _
  have hal : Real.sin t1 * Real.sin t1 ≤ A := by
    rw [hAeq]
    have hterm : 0 ≤ Real.cos (40.7589 * Real.pi / 180) *
        Real.cos (40.7128 * Real.pi / 180) * Real.sin t2 * Real.sin t2 :=
      mul_nonneg (mul_nonneg (mul_nonneg hc1 hc2) hs20) hs20
    linarith
  have hau : A ≤ 0.00000019512 := by
    rw [hAeq]
    have h1 : Real.sin t1 * Real.sin t1 ≤ 0.0004023 * 0.0004023 :=
      mul_le_mul hs1u hs1u (by linarith) (by norm_num)
    have h2 : Real.sin t2 * Real.sin t2 ≤ 0.00018239 * 0.00018239 :=
      mul_le_mul hs2u hs2u hs20 (by norm_num)
    have hcc : Real.cos (40.7589 * Real.pi / 180) *
        Real.cos (40.7128 * Real.pi / 180) ≤ 1 := mul_le_one hc1u hc2 hc2u
    have h3 : Real.cos (40.7589 * Real.pi / 180) *
        Real.cos (40.7128 * Real.pi / 180) * Real.sin t2 * Real.sin t2 ≤
        Real.sin t2 * Real.sin t2 := by
      nlinarith [mul_nonneg hs20 hs20, mul_nonneg hc1 hc2]
    nlinarith [h1, h2, h3]
  have hsqL : (0.000401 : ℝ) ≤ Real.sqrt A := by
    rw [Real.le_sqrt (by norm_num) hA0]
    nlinarith [hal, mul_le_mul hs1l hs1l (by norm_num) (by linarith)]
  have hsqU : Real.sqrt A ≤ 0.0004418 := by
    calc Real.sqrt A ≤ Real.sqrt ((0.0004418 : ℝ) ^ 2) :=
          Real.sqrt_le_sqrt (le_trans hau (by norm_num))
    _ = 0.0004418 := Real.sqrt_sq (by norm_num)
  have harcL : (0.000401 : ℝ) ≤ Real.arcsin (Real.sqrt A) :=
    le_trans hsqL
      (le_arcsin_self (Real.sqrt_nonneg A) (Real.sqrt_le_one.2 hA1))
  have harcU : Real.arcsin (Real.sqrt A) ≤ 0.000442 := by
    have h := arcsin_le_add_cube (Real.sqrt_nonneg A) (by linarith)
    have hcube : Real.sqrt A ^ 3 ≤ (0.0004418 : ℝ) ^ 3 :=
      pow_le_pow_left (Real.sqrt_nonneg A) hsqU 3
    nlinarith [h, hcube]
  constructor
  · nlinarith [harcL]
  · nlinarith [harcU]

/-! ### Claim theorems -/

/-- C1 (counterexample): the claimed equivalence "an issue appears in the
result iff its haversine distance from the center is at most the radius and
it is not hidden" is false on the code: a visible issue at longitude 180
queried from center `(0, -180)` (the same point, distance 0, radius 5) is
rejected by the bounding-box pre-filter and does not appear. -/
theorem visible_issue_missing_from_result :
    distanceTo (0, -180) antimeridianIssue ≤ 5 ∧
      antimeridianIssue.is_hidden = false ∧
      antimeridianIssue ∉
        listVisibleIssues none none (some (0, -180)) 5 1 20
          [antimeridianIssue] := by
  refine ⟨?_, rfl, ?_⟩
  · have hd : distanceTo (0, -180) antimeridianIssue =
        calculateDistance 0 (-180) 0 180 := rfl
    rw [hd, calculateDistance_antimeridian_west]
    norm_num
  · rw [listVisible_antimeridian_empty]
    exact List.not_mem_nil _

/-- C1 (amended): with a center present, an issue appears in the result of
`listVisibleIssues` iff it lies on the requested page of datastore
candidates (non-hidden, matching the category/status filters and the
bounding-box pre-filter, sorted by `created_at` descending, paginated) and
its exact haversine distance from the center is at most the radius; in
particular every returned issue is stored, non-hidden, inside the bounding
box and within the radius. -/
theorem listVisible_mem_characterization (category status : Option String)
    (radius : ℝ) (page limit : ℕ) (issues : List Issue) (c : ℝ × ℝ)
    (i : Issue) :
    (i ∈ listVisibleIssues category status (some c) radius page limit issues ↔
      i ∈ pagedCandidates category status (some c) radius page limit issues ∧
        distanceTo c i ≤ radius) ∧
      (i ∈ listVisibleIssues category status (some c) radius page limit
          issues →
        i ∈ issues ∧ i.is_hidden = false ∧
          inBoundingBox c.1 c.2 radius i.latitude i.longitude ∧
          distanceTo c i ≤ radius) := by
  refine ⟨mem_listVisibleIssues_some, ?_⟩
  intro h
  obtain ⟨hpc, hdist⟩ := mem_listVisibleIssues_some.1 h
  obtain ⟨hmem, hpass⟩ := mem_issues_of_mem_pagedCandidates hpc
  obtain ⟨hhid, -, -, hbox⟩ := hpass
  exact ⟨hmem, hhid, hbox c rfl, hdist⟩

/-- C2 (counterexample): the claim "the bounding-box pre-filter accepts every
issue within haversine distance r of the center, for any r in [0.1, 10] and
center latitude in (-89, 89)" is false on the code: the point `(0, -180)` is
at distance 0 from the center `(0, 180)` (they are the same point on the
antimeridian) yet lies outside the box for radius 1. -/
theorem bounding_box_rejects_true_positive :
    calculateDistance 0 180 0 (-180) ≤ 1 ∧
      ¬ inBoundingBox 0 180 1 0 (-180) := by
  constructor
  · rw [calculateDistance_antimeridian_east]
    norm_num
  · rintro ⟨-, -, h3, -⟩
    unfold lonRange at h3
    rw [show (0 : ℝ) * Real.pi / 180 = 0 by ring, Real.cos_zero] at h3
    norm_num at h3

/-- C2 (amended): for every radius r in [0.1, 10], center latitude in
(-89, 89), issue latitude in [-90, 90], and issue longitude within 180
degrees of the center longitude (no antimeridian wraparound), the
bounding-box pre-filter with latRange = r/111 and
lonRange = r/(111 cos(lat0 pi/180)) accepts every issue whose haversine
distance from the center is at most r. -/
theorem bounding_box_covers_radius {lat0 lon0 lat lon r : ℝ}
    (hr01 : 0.1 ≤ r) (hr10 : r ≤ 10)
    (hlat0l : -89 < lat0) (hlat0u : lat0 < 89)
    (hlatl : -90 ≤ lat) (hlatu : lat ≤ 90)
    (hlon : |lon - lon0| ≤ 180)
    (hd : calculateDistance lat0 lon0 lat lon ≤ r) :
    inBoundingBox lat0 lon0 r lat lon :=
  inBoundingBox_of_dist_le hr01 hr10 hlat0l hlat0u hlatl hlatu hlon hd

/-- Witness for C2 at a concrete input: center (0,0), issue (0,0),
radius 5. -/
theorem bounding_box_covers_radius_witness :
    calculateDistance 0 0 0 0 ≤ 5 ∧ inBoundingBox 0 0 5 0 0 := by
  have hd : calculateDistance 0 0 0 0 ≤ 5 := by
    rw [calculateDistance_self]
    norm_num
  exact ⟨hd, bounding_box_covers_radius (by norm_num) (by norm_num)
    (by norm_num) (by norm_num) (by norm_num) (by norm_num)
    (by norm_num) hd⟩

/-- C6: the distance function of the route is the haversine formula with
Earth radius 6371 km (the `atan2` form equals `2 R arcsin (sqrt a)`), it is
zero when the center equals the location, and the example pair
(40.7589, -73.9851) to (40.7128, -74.0060) is at distance strictly greater
than 5 km and at most 6 km (excluded at radius 5, included at radius 6). -/
theorem distance_function_haversine :
    (∀ lat1 lon1 lat2 lon2 : ℝ, calculateDistance lat1 lon1 lat2 lon2 =
        2 * 6371 * Real.arcsin (Real.sqrt (havA lat1 lon1 lat2 lon2))) ∧
      (∀ lat lon : ℝ, calculateDistance lat lon lat lon = 0) ∧
      5 < calculateDistance 40.7589 (-73.9851) 40.7128 (-74.0060) ∧
      calculateDistance 40.7589 (-73.9851) 40.7128 (-74.0060) ≤ 6 := by
  refine ⟨?_, calculateDistance_self, example_distance_bounds.1,
    example_distance_bounds.2⟩
  intro lat1 lon1 lat2 lon2
  rw [calculateDistance_eq]
  ring

/-- C7: with a center present, the returned list is sorted by non-decreasing
distance from the center, and among issues at equal distance the more
recently created one (greater created_at) comes first, because the stable
distance sort acts on the created_at-descending candidate page. -/
theorem results_sorted_by_distance (category status : Option String)
    (radius : ℝ) (page limit : ℕ) (issues : List Issue) (c : ℝ × ℝ) :
    (listVisibleIssues category status (some c) radius page limit
        issues).Pairwise
      (fun a b => distanceTo c a ≤ distanceTo c b ∧
        (distanceTo c a = distanceTo c b → b.created_at ≤ a.created_at)) := by
  have hsorted : ((dbFilter category status (some c) radius
      issues).insertionSort createdDesc).Pairwise createdDesc :=
    List.sorted_insertionSort createdDesc _
  have hpaged : (pagedCandidates category status (some c) radius page limit
      issues).Pairwise createdDesc := by
    unfold pagedCandidates
    exact hsorted.sublist ((List.take_sublist _ _).trans
      (List.drop_sublist _ _))
  have hfil : ((pagedCandidates category status (some c) radius page limit
      issues).filter fun i => decide (distanceTo c i ≤ radius)).Pairwise
      createdDesc :=
    hpaged.sublist (List.filter_sublist _)
  have htotal : ∀ a b : Issue, distLE c a b ∨ distLE c b a :=
    fun a b => le_total _ _
  have htrans : ∀ a b d : Issue, distLE c a b → distLE c b d → distLE c a d :=
    fun _ _ _ h1 h2 => le_trans h1 h2
  have hmain := pairwise_insertionSort htotal htrans hfil
  show (((pagedCandidates category status (some c) radius page limit
      issues).filter fun i => decide (distanceTo c i ≤ radius)).insertionSort
      (distLE c)).Pairwise _
  refine hmain.imp ?_
  intro a b hab
  exact ⟨hab.1, fun heq => hab.2 (le_of_eq heq.symm)⟩

lemma prop_if_to_bool {c : Prop} [Decidable c] {α : Type} (x y : α) :
    (if c then x else y) = (if (if c then true else false) = true then x
      else y) := by
  by_cases h : c <;> simp [h]

/-- C3: whenever a flag submission succeeds and the number of flag records of
the issue in the resulting store is at least 3, the issue is hidden in the
resulting store; and a successful flag submission never un-hides an issue
that was hidden before (re-setting the flag is a no-op). -/
theorem auto_hide_at_threshold (s : Store) (issueId userId flagId : ℕ)
    (reason : Option String) (hreach : Reachable s)
    (hok : (submitFlag s issueId userId flagId reason).error = none) :
    (∀ j ∈ (submitFlag s issueId userId flagId reason).store.issues,
        j.id = issueId →
        3 ≤ (flagsOf issueId
          (submitFlag s issueId userId flagId reason).store.flags).length →
        j.is_hidden = true) ∧
      (∀ i ∈ s.issues, i.is_hidden = true →
        ∀ j ∈ (submitFlag s issueId userId flagId reason).store.issues,
          j.id = i.id → j.is_hidden = true) := by
  obtain ⟨issue, hfind, hrep, hdup, heq⟩ := submitFlag_ok hok
  have hnodup := (reachable_storeInv hreach).1
  rw [heq]
  constructor
  · intro j hj hjid h3
    dsimp only at hj h3 ⊢
    rw [if_pos h3] at hj
    unfold setHidden incFlagCount at hj
    rw [List.map_map] at hj
    obtain ⟨i, hi, rfl⟩ := List.mem_map.1 hj
    by_cases hid : i.id = issueId
    · simp [hid]
    · exfalso
      apply hid
      rw [← hjid]
      simp [hid]
  · intro i hi hhid j hj hjid
    dsimp only at hj
    rw [prop_if_to_bool] at hj
    obtain ⟨i', hi', hjid', hmatch, hnomatch⟩ := mem_succ_issues hj
    have hii : i' = i :=
      eq_of_mem_pairwise_ne hnodup hi' hi (by rw [← hjid', hjid])
    subst hii
    by_cases hid : i'.id = issueId
    · obtain ⟨-, hh⟩ := hmatch hid
      rw [hh, hhid, Bool.or_true]
    · rw [hnomatch hid, hhid]

/-- Witness for C3: the third flag on the sample issue hides it. -/
theorem auto_hide_at_threshold_witness :
    (∀ j ∈ (submitFlag c3Store 1 7 22 none).store.issues, j.id = 1 →
        3 ≤ (flagsOf 1 (submitFlag c3Store 1 7 22 none).store.flags).length →
        j.is_hidden = true) ∧
      (∀ i ∈ c3Store.issues, i.is_hidden = true →
        ∀ j ∈ (submitFlag c3Store 1 7 22 none).store.issues, j.id = i.id →
          j.is_hidden = true) :=
  auto_hide_at_threshold c3Store 1 7 22 none
    (Reachable.flag _ 1 6 21 none
      (Reachable.flag _ 1 5 20 none
        (Reachable.create ⟨[], []⟩ _ Reachable.init (by simp) rfl rfl)))
    rfl

/-- C4 (counterexample): the claim that a second flag by the same user fails
with a Conflict error (HTTP 409) is false on the code: at this concrete
input the route raises a `ValidationError`, whose status code is 400, not
409. -/
theorem duplicate_flag_conflict_counterexample :
    submitFlag dupFlagStore 1 2 11 none =
      ⟨dupFlagStore, some ApiError.validation⟩ ∧
      ApiError.validation.statusCode ≠ 409 := by
  exact ⟨rfl, by decide⟩

/-- C4 (amended): a second flag by the same user on the same issue fails
with a `ValidationError` (HTTP 400, not 409 Conflict) and leaves the store,
in particular the flag count and all other issue state, unchanged. -/
theorem duplicate_flag_rejected (s : Store) (issueId userId flagId : ℕ)
    (reason : Option String) (issue : Issue) (f : IssueFlagRec)
    (hfind : s.issues.find? (fun i => i.id == issueId) = some issue)
    (hrep : issue.reporter_id ≠ some userId)
    (hdup : s.flags.find?
      (fun g => g.issue_id == issueId && g.flagged_by == userId) = some f) :
    submitFlag s issueId userId flagId reason =
      ⟨s, some ApiError.validation⟩ ∧
      ApiError.validation.statusCode = 400 :=
  ⟨submitFlag_duplicate hfind hrep hdup, rfl⟩

/-- Witness for C4 at the sample store. -/
theorem duplicate_flag_rejected_witness :
    submitFlag dupFlagStore 1 2 11 none =
      ⟨dupFlagStore, some ApiError.validation⟩ ∧
      ApiError.validation.statusCode = 400 :=
  duplicate_flag_rejected dupFlagStore 1 2 11 none
    ⟨1, "roads", "reported", 0, 0, some 0, 1, false, 0⟩ ⟨10, 1, 2, none⟩
    rfl (by decide) rfl

/-- C5: in every reachable store, each issue's `flag_count` equals the
number of flag records referencing it, and every successful flag submission
adds exactly one flag record while incrementing the target issue's
`flag_count` by exactly one. -/
theorem flag_count_invariant :
    (∀ s : Store, Reachable s →
      ∀ i ∈ s.issues, i.flag_count = (flagsOf i.id s.flags).length) ∧
      (∀ (s : Store) (issueId userId flagId : ℕ) (reason : Option String),
        (submitFlag s issueId userId flagId reason).error = none →
        (submitFlag s issueId userId flagId reason).store.flags.length =
            s.flags.length + 1 ∧
          (flagsOf issueId
              (submitFlag s issueId userId flagId reason).store.flags).length
            = (flagsOf issueId s.flags).length + 1 ∧
          ∀ j ∈ (submitFlag s issueId userId flagId reason).store.issues,
            j.id = issueId → ∃ i ∈ s.issues, i.id = issueId ∧
              j.flag_count = i.flag_count + 1) := by
  constructor
  · intro s hs
    exact (reachable_storeInv hs).2.1
  · intro s issueId userId flagId reason hok
    obtain ⟨issue, hfind, hrep, hdup, heq⟩ := submitFlag_ok hok
    rw [heq]
    refine ⟨?_, ?_, ?_⟩
    · dsimp only
      rw [List.length_append]
      rfl
    · dsimp only
      rw [flagsOf_append_match, List.length_append]
      rfl
    · intro j hj hjid
      dsimp only at hj
      rw [prop_if_to_bool] at hj
      obtain ⟨i, hi, hjid', hmatch, hnomatch⟩ := mem_succ_issues hj
      have hid : i.id = issueId := by rw [← hjid', hjid]
      exact ⟨i, hi, hid, (hmatch hid).1⟩

/-- Witness for C5: the invariant at a concrete reachable store and the
increment facts at a concrete successful submission. -/
theorem flag_count_invariant_witness :
    (∀ i ∈ flagStore1.issues,
        i.flag_count = (flagsOf i.id flagStore1.flags).length) ∧
      ((submitFlag flagStore1 1 2 11 none).store.flags.length =
          flagStore1.flags.length + 1 ∧
        (flagsOf 1 (submitFlag flagStore1 1 2 11 none).store.flags).length =
          (flagsOf 1 flagStore1.flags).length + 1 ∧
        ∀ j ∈ (submitFlag flagStore1 1 2 11 none).store.issues, j.id = 1 →
          ∃ i ∈ flagStore1.issues, i.id = 1 ∧
            j.flag_count = i.flag_count + 1) :=
  ⟨flag_count_invariant.1 flagStore1
      (Reachable.create ⟨[], []⟩ flagIssue1 Reachable.init (by simp) rfl rfl),
    flag_count_invariant.2 flagStore1 1 2 11 none rfl⟩

/-- C8: flagging one's own issue fails with a `ForbiddenError` (HTTP 403)
with the store unchanged: no flag record is created, `flag_count` and
`is_hidden` are untouched. -/
theorem self_flag_forbidden (s : Store) (issueId userId flagId : ℕ)
    (reason : Option String) (issue : Issue)
    (hfind : s.issues.find? (fun i => i.id == issueId) = some issue)
    (hrep : issue.reporter_id = some userId) :
    submitFlag s issueId userId flagId reason =
      ⟨s, some ApiError.forbidden⟩ ∧
      ApiError.forbidden.statusCode = 403 :=
  ⟨submitFlag_forbidden hfind hrep, rfl⟩

/-- Witness for C8 at the sample store: user 2 flags their own issue. -/
theorem self_flag_forbidden_witness :
    submitFlag selfFlagStore 1 2 11 none =
      ⟨selfFlagStore, some ApiError.forbidden⟩ ∧
      ApiError.forbidden.statusCode = 403 :=
  self_flag_forbidden selfFlagStore 1 2 11 none
    ⟨1, "roads", "reported", 0, 0, some 2, 0, false, 0⟩ rfl rfl

/-- C9 (code bug): the data model's category set (seed data, admin route,
frontend types) spells `water_supply` and `public_safety` with underscores,
but the list route's validator whitelist spells them with spaces, so
GET /api/issues?category=water_supply is rejected with a `ValidationError`
even though issues are stored under that category, and the accepted spelling
`water supply` matches no stored category. -/
theorem category_whitelist_mismatch :
    "water_supply" ∈ seedCategories ∧
      "public_safety" ∈ seedCategories ∧
      categoryParamValid (some "water_supply") = false ∧
      categoryParamValid (some "public_safety") = false ∧
      getIssuesRoute (some "water_supply") none none 5 1 20 [] =
        Except.error ApiError.validation ∧
      categoryParamValid (some "water supply") = true ∧
      "water supply" ∉ seedCategories := by
  refine ⟨by decide, by decide, by decide, by decide, ?_, by decide,
    by decide⟩
  unfold getIssuesRoute
  rw [show categoryParamValid (some "water_supply") = false by decide]
  simp

/-- C10: fetching a single issue by id returns `NotFoundError` whenever
every stored issue with that id is hidden, exactly as when no issue with
that id exists at all. -/
theorem hidden_issue_not_found (issues : List Issue) (id : ℕ)
    (h : ∀ i ∈ issues, i.id = id → i.is_hidden = true) :
    getIssueById issues id = Except.error ApiError.notFound ∧
      getIssueById issues id = getIssueById [] id := by
  have hfind : issues.find?
      (fun i => i.id == id && i.is_hidden == false) = none := by
    rw [List.find?_eq_none]
    intro i hi
    simp only [Bool.and_eq_true, beq_iff_eq]
    rintro ⟨hid, hhid⟩
    rw [h i hi hid] at hhid
    simp at hhid
  constructor
  · unfold getIssueById
    rw [hfind]
  · unfold getIssueById
    rw [hfind]
    rfl

/-- Witness for C10 at a concrete store with one hidden issue. -/
theorem hidden_issue_not_found_witness :
    getIssueById [hiddenIssue3] 3 = Except.error ApiError.notFound ∧
      getIssueById [hiddenIssue3] 3 = getIssueById [] 3 :=
  hidden_issue_not_found [hiddenIssue3] 3 (by decide)

end CivicTrack
